import Mathlib

/-!
Verification of the overlay/visibility controller in `src/public/landing.js`
(the landing-page script of the location-aware-risk-chatbot repository).

The script is a single IIFE manipulating the browser DOM.  We embed it
shallowly as a state machine: a record `St` holds the parts of the page and
module state that the script reads or writes (the sessionStorage dismissal
key, the module-level `landingRoot` reference, the set of attached overlay
root nodes, pending `setTimeout` detach callbacks, the keyframe `<style>`
node count, the "Homepage" return button(s) and their floating container,
the header presence, and the host's interactive elements).  Each function of
the script becomes a state transformer, and `Op` enumerates every entry
point (lifecycle calls, the MutationObserver callback, timer firings, the
debug hooks on `window.CULanding`, and host-tree mutations performed by the
third-party UI).  Overlay root nodes are identified by a fresh counter
(`nextId`), standing in for JS object identity.

Focus calls (`el.focus()`) and pure visual style writes (opacity,
pointer-events) carry no state the claims depend on and are not modelled;
`requestAnimationFrame` and the 50 ms focus timer likewise only trigger
focus/style effects and are omitted.  Everything else follows the source
line by line (line references in comments).
-/

set_option autoImplicit false

namespace LandingScript

/-- Character-level substring test, the semantics of JS
`String.prototype.includes` on the ASCII strings this program uses. -/
def strIncludes (hay pat : String) : Bool :=
  (List.range (hay.data.length + 1)).any fun i =>
    (hay.data.drop i).take pat.data.length == pat.data

/-- JS `String.prototype.toLowerCase` on ASCII strings. -/
def lowerStr (s : String) : String := ⟨s.data.map Char.toLower⟩

/-- JS `String.prototype.trim` on ASCII strings. -/
def trimStr (s : String) : String :=
  ⟨((s.data.dropWhile Char.isWhitespace).reverse.dropWhile Char.isWhitespace).reverse⟩

/-- JS `String.prototype.startsWith` at the character level. -/
def jsStartsWith (s pre : String) : Bool :=
  s.data.take pre.data.length == pre.data

/-- One interactive host element, as seen by `hideNativeHeaderButtons`
(landing.js lines 244-276): its `aria-label`, `data-testid` and text
content, and whether its `style.display` is not `"none"`. -/
structure Ctrl where
  ariaLabel : String
  testid : String
  text : String
  visible : Bool
deriving DecidableEq

/-- The denylist test of `hideNativeHeaderButtons` (landing.js lines
250-274): lowercased label/testid and trimmed lowercased text; the element
is hidden when its text is exactly "readme", or its label or testid
contains "readme", or its label contains "theme"/"dark mode"/"light mode",
or its testid contains "theme"/"color-mode". -/
def matchesDenylist (c : Ctrl) : Bool :=
  let label := lowerStr c.ariaLabel
  let tid := lowerStr c.testid
  let txt := lowerStr (trimStr c.text)
  (txt == "readme" || strIncludes label "readme" || strIncludes tid "readme")
    || (strIncludes label "theme" || strIncludes label "dark mode"
        || strIncludes label "light mode" || strIncludes tid "theme"
        || strIncludes tid "color-mode")

/-- Where the return button currently sits: appended to the `.cl-header`
element, or to the floating fallback container (landing.js lines 335-349). -/
inductive BtnPlace
  | header
  | floating
deriving DecidableEq

/-- The modelled page + module state.  `attachedOverlays` are the ids of
overlay root nodes currently attached to `document.body`; `landingRoot` is
the module-level reference (line 10); `pendingDetach` the queue of
scheduled 260 ms removal callbacks of `hideLanding` (line 286), in firing
order; `keyframes` the number of `#cu-landing-anim` style nodes;
`returnBtns` the `#cu-landing-return-btn` elements present with their
location; `containerPresent` whether `#cu-landing-return-container`
exists; `initListener` whether the DOMContentLoaded listener of line 389
is registered. -/
structure St where
  sessionKey : Option String
  landingRoot : Option Nat
  attachedOverlays : List Nat
  nextId : Nat
  pendingDetach : List Nat
  keyframes : Nat
  returnBtns : List BtnPlace
  containerPresent : Bool
  headerPresent : Bool
  hostControls : List Ctrl
  observerInstalled : Bool
  debugHookInstalled : Bool
  initListener : Bool
deriving DecidableEq

/-- `hideNativeHeaderButtons` (lines 244-276): every candidate matching the
denylist gets `style.display = "none"`; nothing is removed. -/
def hideNativeHeaderButtons (l : List Ctrl) : List Ctrl :=
  l.map fun c => if matchesDenylist c then { c with visible := false } else c

/-- `ensureKeyframe` (lines 232-239): if `#cu-landing-anim` exists, return;
else create the style node and append it to the head. -/
def ensureKeyframe (s : St) : St :=
  if s.keyframes ≠ 0 then s else { s with keyframes := s.keyframes + 1 }

/-- `ensureReturnButton` (lines 317-350): always run
`hideNativeHeaderButtons`; if `#cu-landing-return-btn` already exists
anywhere, return; else create the button and append it to the header if
present, otherwise to the (reused or newly created) floating container. -/
def ensureReturnButton (s : St) : St :=
  let s1 : St := { s with hostControls := hideNativeHeaderButtons s.hostControls }
  if s1.returnBtns ≠ [] then s1
  else if s1.headerPresent then { s1 with returnBtns := [BtnPlace.header] }
  else { s1 with returnBtns := [BtnPlace.floating], containerPresent := true }

/-- `removeReturnButton` (lines 352-358): if no button exists, return; else
remove the (first) button, and when its parent is the floating container,
remove that container too. -/
def removeReturnButton (s : St) : St :=
  match s.returnBtns with
  | [] => s
  | b :: rest =>
    let s1 : St := { s with returnBtns := rest }
    if b = BtnPlace.floating then { s1 with containerPresent := false } else s1

/-- `buildLanding` (lines 19-229), state part: constructs the overlay tree,
then (lines 225-227) assigns the module reference `landingRoot = root`,
appends the root to `document.body`, and schedules a focus call (focus not
modelled).  The fresh id `s.nextId` stands for the new node's identity. -/
def buildLanding (s : St) : St :=
  { s with
    attachedOverlays := s.attachedOverlays ++ [s.nextId]
    landingRoot := some s.nextId
    nextId := s.nextId + 1 }

/-- `hideLanding` (lines 281-296): no-op when `landingRoot` is null; else
capture `root = landingRoot`, schedule the 260 ms detach callback, and if
`storeDismissal` write `"1"` to the session key.  Note that `landingRoot`
is NOT cleared here; the callback clears it (line 288). -/
def hideLanding (store : Bool) (s : St) : St :=
  match s.landingRoot with
  | none => s
  | some r =>
    let s1 : St := { s with pendingDetach := s.pendingDetach ++ [r] }
    if store then { s1 with sessionKey := some "1" } else s1

/-- The 260 ms callback scheduled by `hideLanding` (lines 286-290) firing:
remove the captured root if still attached, null the module reference if it
still points at that root, then run `ensureReturnButton`.  Callbacks fire
in FIFO order, so the head of `pendingDetach` fires. -/
def fireDetach (s : St) : St :=
  match s.pendingDetach with
  | [] => s
  | r :: rest =>
    let s1 : St := { s with
      attachedOverlays := s.attachedOverlays.erase r
      landingRoot := if s.landingRoot = some r then none else s.landingRoot
      pendingDetach := rest }
    ensureReturnButton s1

/-- Lines 301-304 of `showLanding`: if the module reference holds a root,
remove that node and null the reference; otherwise do nothing. -/
def clearLandingRoot (s : St) : St :=
  match s.landingRoot with
  | some r =>
    { s with attachedOverlays := s.attachedOverlays.erase r, landingRoot := none }
  | none => s

/-- `showLanding` (lines 298-312): optionally clear the session key, remove
the return button, remove any current `landingRoot` node and null the
reference, ensure the keyframe, then `buildLanding` (which attaches a new
root and sets the reference).  The `requestAnimationFrame` step only writes
opacity/pointer-events and is not modelled. -/
def showLanding (resetFlag : Bool) (s : St) : St :=
  buildLanding (ensureKeyframe (clearLandingRoot (removeReturnButton
    (if resetFlag then { s with sessionKey := none } else s))))

/-- `setupObservers` (lines 363-372): install the MutationObserver at most
once, then run one reconciliation pass (`ensureReturnButton` followed by
`hideNativeHeaderButtons`). -/
def setupObservers (s : St) : St :=
  if s.observerInstalled then s
  else
    let s1 : St := ensureReturnButton { s with observerInstalled := true }
    { s1 with hostControls := hideNativeHeaderButtons s1.hostControls }

/-- Lines 380-384 of `init`: show the landing when the stored key is falsy
(absent, or present but empty, the two falsy cases of `getItem`), else only
ensure the return button. -/
def routeInit (t : St) : St :=
  match t.sessionKey with
  | none => showLanding false t
  | some v => if v = "" then showLanding false t else ensureReturnButton t

/-- `init` (lines 377-386): ensure keyframe, hide native buttons, then the
conditional presentation of lines 380-384, and finally `setupObservers`. -/
def init (s : St) : St :=
  let s1 : St := ensureKeyframe s
  let s2 : St := { s1 with hostControls := hideNativeHeaderButtons s1.hostControls }
  setupObservers (routeInit s2)

/-- The debug hook `window.CULanding.reset` (lines 398-401): remove the
session key, then `showLanding()` with the default `resetFlag = false`. -/
def resetOp (s : St) : St :=
  showLanding false { s with sessionKey := none }

/-- Evaluation of the whole IIFE (lines 5-404): the guard of line 14
returns immediately on `/share` paths; otherwise `init` runs now or a
DOMContentLoaded listener is registered (lines 388-392), and the debug
hook object is assigned (line 395). -/
def runScript (pathname : String) (loading : Bool) (s : St) : St :=
  if jsStartsWith pathname "/share" then s
  else
    let s1 : St := if loading then { s with initListener := true } else init s
    { s1 with debugHookInstalled := true }

/-- The DOMContentLoaded event firing: runs `init` when the listener of
line 389 was registered. -/
def domReady (s : St) : St :=
  if s.initListener then init { s with initListener := false } else s

/-- Host-tree mutations performed by the third-party UI, which owns and
continuously rewrites its interactive elements, its header, and may clobber
nodes this script appended into the header/body. -/
inductive HostMut
  | addCtrl (c : Ctrl)
  | removeCtrl (i : Nat)
  | rewriteCtrls (l : List Ctrl)
  | setHeader (b : Bool)
  | removeReturnBtns
deriving DecidableEq

def applyHostMut : HostMut → St → St
  | HostMut.addCtrl c, s => { s with hostControls := s.hostControls ++ [c] }
  | HostMut.removeCtrl i, s => { s with hostControls := s.hostControls.eraseIdx i }
  | HostMut.rewriteCtrls l, s => { s with hostControls := l }
  | HostMut.setHeader b, s => { s with headerPresent := b }
  | HostMut.removeReturnBtns, s => { s with returnBtns := [] }

/-- Every entry point of the script: lifecycle calls (including the debug
hooks `show`/`hide`/`reset`/`hideHeaderButtons`), the observer callback
(`reconcile`), a pending detach timer firing, `init`, the DOMContentLoaded
event, and host mutations. -/
inductive Op
  | present (b : Bool)
  | dismiss (b : Bool)
  | reconcile
  | fire
  | keyframe
  | reset
  | hideNatives
  | boot
  | ready
  | host (m : HostMut)
deriving DecidableEq

/-- One step.  `reconcile` is the MutationObserver callback of lines
365-368: `ensureReturnButton()` then `hideNativeHeaderButtons()`. -/
def applyOp : Op → St → St
  | Op.present b, s => showLanding b s
  | Op.dismiss b, s => hideLanding b s
  | Op.reconcile, s =>
    let s1 : St := ensureReturnButton s
    { s1 with hostControls := hideNativeHeaderButtons s1.hostControls }
  | Op.fire, s => fireDetach s
  | Op.keyframe, s => ensureKeyframe s
  | Op.reset, s => resetOp s
  | Op.hideNatives, s => { s with hostControls := hideNativeHeaderButtons s.hostControls }
  | Op.boot, s => init s
  | Op.ready, s => domReady s
  | Op.host m, s => applyHostMut m s

def applyOps (ops : List Op) (s : St) : St :=
  ops.foldl (fun t op => applyOp op t) s

/-- The page state before the script acts: empty session storage, no
overlay, no buttons, an arbitrary-free default host (no header, no
controls). -/
def St.start : St where
  sessionKey := none
  landingRoot := none
  attachedOverlays := []
  nextId := 0
  pendingDetach := []
  keyframes := 0
  returnBtns := []
  containerPresent := false
  headerPresent := false
  hostControls := []
  observerInstalled := false
  debugHookInstalled := false
  initListener := false

/-- The controller invariant: at most one return button, and the attached
overlay roots are exactly the node the module reference points at. -/
def Inv (s : St) : Prop :=
  s.returnBtns.length ≤ 1 ∧ s.attachedOverlays = s.landingRoot.toList

instance (s : St) : Decidable (Inv s) := by
  unfold Inv; infer_instance

/-- First index of `a` in a list, as JS `Array.prototype.indexOf` (before
the conversion of a missing element to -1). -/
def firstIdx (a : Nat) : List Nat → Option Nat
  | [] => none
  | b :: bs => if b = a then some 0 else (firstIdx a bs).map (· + 1)

/-- JS `Array.prototype.indexOf`: first index, or -1 when absent. -/
def jsIndexOf (items : List Nat) (a : Nat) : Int :=
  match firstIdx a items with
  | none => -1
  | some i => (i : Int)

/-- The focus-trap keydown handler of `buildLanding` (lines 206-223) on a
Tab key press: `items` are the overlay's focusable elements in document
order (as identities), `active` is `document.activeElement`, `shift` the
modifier.  Returns `some j` when the handler focuses element `j` (and
prevents default), `none` when it takes no action. -/
def trapKeydown (items : List Nat) (active : Nat) (shift : Bool) : Option Nat :=
  if items.length = 0 then none
  else
    let idx : Int := jsIndexOf items active
    if shift then
      if idx ≤ 0 then items.getLast? else none
    else
      if idx = (items.length : Int) - 1 then items.head? else none

/-- The denylist as the specification words it (Host Reconciler step 2):
exact or partial match on "readme" in text, label, or identifier, or
partial match on "theme"/"dark mode"/"light mode" in the accessible label
or the test identifier.  Stated from the spec's words, to be compared with
`matchesDenylist`, the matcher the code implements. -/
def specDenylist (c : Ctrl) : Bool :=
  let label := lowerStr c.ariaLabel
  let tid := lowerStr c.testid
  let txt := lowerStr (trimStr c.text)
  (strIncludes txt "readme" || strIncludes label "readme" || strIncludes tid "readme")
    || (strIncludes label "theme" || strIncludes label "dark mode"
        || strIncludes label "light mode" || strIncludes tid "theme"
        || strIncludes tid "dark mode" || strIncludes tid "light mode")

/-- A host element whose visible text contains "readme" without being
exactly "readme", with no label and no testid. -/
def cSeeReadme : Ctrl where
  ariaLabel := ""
  testid := ""
  text := "see readme"
  visible := true

def sSeeReadme : St := { St.start with hostControls := [cSeeReadme] }

/-- A host element labelled like the spec's dark-mode-toggle scenario. -/
def cDark : Ctrl where
  ariaLabel := "Dark Mode Toggle"
  testid := ""
  text := ""
  visible := true

def cDarkHidden : Ctrl := { cDark with visible := false }

def sDark : St := { St.start with hostControls := [cDark] }

/-- A state with one live, attached overlay and nothing pending, as after
`showLanding` on the fresh page. -/
def sLive : St := buildLanding St.start

def sFloatBtn : St :=
  { St.start with returnBtns := [BtnPlace.floating], containerPresent := true }

/-!
## Lemmas and claim theorems
-/

theorem matchesDenylist_visible (c : Ctrl) (v : Bool) :
    matchesDenylist { c with visible := v } = matchesDenylist c := by
  cases c; rfl

theorem hideNative_idem (l : List Ctrl) :
    hideNativeHeaderButtons (hideNativeHeaderButtons l) = hideNativeHeaderButtons l := by
  induction l with
  | nil => rfl
  | cons c t ih =>
    simp only [hideNativeHeaderButtons, List.map_cons] at ih ⊢
    refine congrArg₂ _ ?_ ih
    by_cases h : matchesDenylist c <;> simp [h, matchesDenylist_visible]

theorem hideNative_length (l : List Ctrl) :
    (hideNativeHeaderButtons l).length = l.length := by
  simp [hideNativeHeaderButtons]

theorem mem_hideNative_hidden {l : List Ctrl} {c : Ctrl}
    (hc : c ∈ hideNativeHeaderButtons l) (hm : matchesDenylist c = true) :
    c.visible = false := by
  rcases List.mem_map.1 hc with ⟨c0, _, heq⟩
  by_cases h : matchesDenylist c0
  · rw [if_pos h] at heq; rw [← heq]
  · rw [if_neg h] at heq; rw [← heq] at hm; exact absurd hm (by simp [h])

theorem reconcile_hostControls (s : St) :
    (applyOp Op.reconcile s).hostControls = hideNativeHeaderButtons s.hostControls := by
  simp only [applyOp, ensureReturnButton]
  split
  · exact hideNative_idem _
  · split <;> exact hideNative_idem _

theorem mem_of_getLast?_eq : ∀ {l : List Nat} {z : Nat}, l.getLast? = some z → z ∈ l
  | [], _, h => by simp at h
  | [b], z, h => by
    simp only [List.getLast?_singleton, Option.some.injEq] at h
    exact h ▸ List.mem_singleton_self b
  | b :: c :: cs, z, h => by
    rw [List.getLast?_cons_cons] at h
    exact List.mem_cons_of_mem b (mem_of_getLast?_eq h)

theorem firstIdx_getLast : ∀ (l : List Nat) (z : Nat), l.Nodup → l.getLast? = some z →
    firstIdx z l = some (l.length - 1)
  | [], _, _, hz => by simp at hz
  | [b], z, _, hz => by
    simp only [List.getLast?_singleton, Option.some.injEq] at hz
    subst hz
    simp [firstIdx]
  | b :: c :: cs, z, hn, hz => by
    rw [List.getLast?_cons_cons] at hz
    have hzmem : z ∈ c :: cs := mem_of_getLast?_eq hz
    have hb : ¬(b = z) := fun h => (List.nodup_cons.1 hn).1 (h ▸ hzmem)
    have ih := firstIdx_getLast (c :: cs) z (List.nodup_cons.1 hn).2 hz
    rw [show firstIdx z (b :: c :: cs)
          = if b = z then some 0 else (firstIdx z (c :: cs)).map (· + 1) from rfl,
      if_neg hb, ih]
    simp [List.length_cons]

theorem jsIndexOf_getLast (l : List Nat) (z : Nat) (hn : l.Nodup)
    (hz : l.getLast? = some z) (hne : l.length ≠ 0) :
    jsIndexOf l z = (l.length : Int) - 1 := by
  rw [jsIndexOf, firstIdx_getLast l z hn hz]
  show ((l.length - 1 : Nat) : Int) = (l.length : Int) - 1
  omega

/-- C8 (confirmed): while the overlay is open, a Tab press with focus on
the last element of the overlay's focusable set moves focus to the first
element, a Shift+Tab press with focus on the first element moves focus to
the last element, and with an empty focusable set the handler takes no
action. -/
theorem focus_trap_wraps (items : List Nat) (z a0 a : Nat) (sh : Bool)
    (hn : items.Nodup) (hz : items.getLast? = some z) (ha : items.head? = some a0) :
    trapKeydown items z false = some a0
    ∧ trapKeydown items a0 true = some z
    ∧ trapKeydown [] a sh = none := by
  have hne : items ≠ [] := by
    intro h
    subst h
    simp at hz
  have hlen : items.length ≠ 0 := by
    simpa [List.length_eq_zero] using hne
  refine ⟨?_, ?_, by cases sh <;> rfl⟩
  · have hidx : jsIndexOf items z = (items.length : Int) - 1 :=
      jsIndexOf_getLast items z hn hz hlen
    simp [trapKeydown, hlen, hidx, ha]
  · obtain ⟨t, rfl⟩ : ∃ t, items = a0 :: t := by
      cases items with
      | nil => simp at ha
      | cons x t =>
        simp only [List.head?_cons, Option.some.injEq] at ha
        exact ⟨t, by rw [ha]⟩
    have hidx0 : jsIndexOf (a0 :: t) a0 = 0 := by
      simp [jsIndexOf, firstIdx]
    simp [trapKeydown, hidx0, hz]

theorem focus_trap_wraps_witness :
    trapKeydown [10, 20, 30] 30 false = some 10
    ∧ trapKeydown [10, 20, 30] 10 true = some 30
    ∧ trapKeydown [] 5 true = none :=
  focus_trap_wraps [10, 20, 30] 30 10 5 true (by decide) (by decide) (by decide)

/-- C4 (confirmed): when the page path begins with "/share", the guard at
line 14 exits the IIFE before anything runs: the whole script evaluation
leaves the page state untouched -- no overlay, no return control, no hidden
host controls, no observer, no listener, no debug hook -- whatever the
dismissal-key state is. -/
theorem share_route_inert (p : String) (loading : Bool) (s : St)
    (h : jsStartsWith p "/share" = true) :
    runScript p loading s = s := by
  simp [runScript, h]

theorem share_route_inert_witness :
    jsStartsWith "/share/abc123" "/share" = true
    ∧ runScript "/share/abc123" false { St.start with sessionKey := some "1" }
        = { St.start with sessionKey := some "1" }
    ∧ runScript "/share/abc123" true St.start = St.start :=
  ⟨by decide, share_route_inert _ false _ (by decide),
    share_route_inert _ true _ (by decide)⟩

/-- C3 counterexample: `buildLanding` is not a pure constructor returning a
detached node.  On the fresh page state it attaches the new overlay root to
the document body (lines 225-226) and sets the module-level `landingRoot`
reference -- contradicting "returns a detached root node", "does not attach
the node to the host document" and "does not mutate controller state". -/
theorem buildLanding_impure_cex :
    St.start.attachedOverlays = [] ∧ St.start.landingRoot = none
    ∧ (buildLanding St.start).attachedOverlays = [0]
    ∧ (buildLanding St.start).landingRoot = some 0 := by
  refine ⟨rfl, rfl, rfl, rfl⟩

/-- C3 amended: `buildLanding` constructs the overlay deterministically
from no external state, but its side effects are exactly: attaching the
new root node to the document body, setting the controller's overlay-root
reference to it, and consuming a fresh identity; every other part of the
state (session key, pending timers, keyframes, return buttons, container,
header, host controls, observer) is untouched. -/
theorem buildLanding_effects (s : St) :
    (buildLanding s).attachedOverlays = s.attachedOverlays ++ [s.nextId]
    ∧ (buildLanding s).landingRoot = some s.nextId
    ∧ (buildLanding s).nextId = s.nextId + 1
    ∧ (buildLanding s).sessionKey = s.sessionKey
    ∧ (buildLanding s).pendingDetach = s.pendingDetach
    ∧ (buildLanding s).keyframes = s.keyframes
    ∧ (buildLanding s).returnBtns = s.returnBtns
    ∧ (buildLanding s).containerPresent = s.containerPresent
    ∧ (buildLanding s).headerPresent = s.headerPresent
    ∧ (buildLanding s).hostControls = s.hostControls
    ∧ (buildLanding s).observerInstalled = s.observerInstalled :=
  ⟨rfl, rfl, rfl, rfl, rfl, rfl, rfl, rfl, rfl, rfl, rfl⟩

/-- C10 (confirmed): `removeReturnButton` with no button present is a
no-op; removing a button that sits in the floating container removes the
container with it (and touches nothing else of the host document); removing
a button that sits in the header leaves the container state alone. -/
theorem removeReturnButton_spec (s : St) :
    (s.returnBtns = [] → removeReturnButton s = s)
    ∧ (∀ rest, s.returnBtns = BtnPlace.floating :: rest →
        (removeReturnButton s).returnBtns = rest
        ∧ (removeReturnButton s).containerPresent = false
        ∧ (removeReturnButton s).attachedOverlays = s.attachedOverlays
        ∧ (removeReturnButton s).hostControls = s.hostControls
        ∧ (removeReturnButton s).headerPresent = s.headerPresent)
    ∧ (∀ rest, s.returnBtns = BtnPlace.header :: rest →
        (removeReturnButton s).returnBtns = rest
        ∧ (removeReturnButton s).containerPresent = s.containerPresent) := by
  refine ⟨fun h => ?_, fun rest h => ?_, fun rest h => ?_⟩ <;>
    simp [removeReturnButton, h]

theorem removeReturnButton_spec_witness :
    removeReturnButton St.start = St.start
    ∧ (removeReturnButton sFloatBtn).returnBtns = []
    ∧ (removeReturnButton sFloatBtn).containerPresent = false :=
  ⟨(removeReturnButton_spec St.start).1 rfl,
    ((removeReturnButton_spec sFloatBtn).2.1 [] rfl).1,
    ((removeReturnButton_spec sFloatBtn).2.1 [] rfl).2.1⟩

/-- C7 counterexample: the claim's denylist reads "exact/partial match on
'readme' in text, label, or identifier", but the code (line 256) matches
the visible text only exactly (`text === "readme"`).  An element whose
text is "see readme" with empty label and testid matches the
spec-worded denylist, yet a reconciliation pass leaves it visible. -/
theorem denylist_text_partial_cex :
    specDenylist cSeeReadme = true
    ∧ matchesDenylist cSeeReadme = false
    ∧ (applyOp Op.reconcile sSeeReadme).hostControls = [cSeeReadme]
    ∧ cSeeReadme.visible = true := by
  refine ⟨by decide, by decide, by decide, rfl⟩

/-- C7 amended: on every reconciliation pass every interactive element
matching the code's denylist (text exactly "readme" after trim/lowercase,
or "readme" contained in label or testid, or "theme"/"dark mode"/
"light mode" contained in the label, or "theme"/"color-mode" contained in
the testid) is display-suppressed, and no element is removed (the list of
host controls keeps its length); if the host removes and recreates a
matching element, the next pass hides it again. -/
theorem denylist_hiding (s : St) (c : Ctrl) :
    ((applyOp Op.reconcile s).hostControls.length = s.hostControls.length)
    ∧ (c ∈ (applyOp Op.reconcile s).hostControls → matchesDenylist c = true →
        c.visible = false)
    ∧ (∀ c', c' ∈ (applyOp Op.reconcile (applyOp (Op.host (HostMut.addCtrl c)) s)).hostControls →
        matchesDenylist c' = true → c'.visible = false) := by
  refine ⟨?_, fun hc hm => ?_, fun c' hc hm => ?_⟩
  · rw [reconcile_hostControls]
    exact hideNative_length _
  · rw [reconcile_hostControls] at hc
    exact mem_hideNative_hidden hc hm
  · rw [reconcile_hostControls] at hc
    exact mem_hideNative_hidden hc hm

theorem denylist_hiding_witness :
    cDarkHidden ∈ (applyOp Op.reconcile sDark).hostControls
    ∧ matchesDenylist cDarkHidden = true
    ∧ cDarkHidden.visible = false :=
  ⟨by decide, by decide, (denylist_hiding sDark cDarkHidden).2.1 (by decide) (by decide)⟩

theorem ensureReturnButton_eq (s : St) :
    ensureReturnButton s =
      { s with
        hostControls := hideNativeHeaderButtons s.hostControls
        returnBtns :=
          if s.returnBtns = [] then
            if s.headerPresent then [BtnPlace.header] else [BtnPlace.floating]
          else s.returnBtns
        containerPresent :=
          if s.returnBtns = [] ∧ s.headerPresent = false then true
          else s.containerPresent } := by
  obtain ⟨k, lr, ao, ni, pd, kf, rb, cp, hp, hc, oi, dh, il⟩ := s
  by_cases h1 : rb = [] <;> cases hp <;> simp [ensureReturnButton, h1]

theorem removeReturn_nil {s : St} (h : s.returnBtns = []) :
    removeReturnButton s = s := by
  unfold removeReturnButton
  rw [h]

theorem removeReturn_cons {s : St} {b : BtnPlace} {rest : List BtnPlace}
    (h : s.returnBtns = b :: rest) :
    removeReturnButton s =
      { s with
        returnBtns := rest
        containerPresent :=
          if b = BtnPlace.floating then false else s.containerPresent } := by
  obtain ⟨k, lr, ao, ni, pd, kf, rb, cp, hp, hc, oi, dh, il⟩ := s
  subst h
  cases b <;> simp [removeReturnButton]

theorem ensureKeyframe_eq (s : St) :
    ensureKeyframe s = if s.keyframes = 0 then { s with keyframes := 1 } else s := by
  obtain ⟨k, lr, ao, ni, pd, kf, rb, cp, hp, hc, oi, dh, il⟩ := s
  by_cases h : kf = 0 <;> simp [ensureKeyframe, h]

theorem hideLanding_none {s : St} (b : Bool) (h : s.landingRoot = none) :
    hideLanding b s = s := by
  unfold hideLanding
  rw [h]

theorem hideLanding_some {s : St} {r : Nat} (b : Bool) (h : s.landingRoot = some r) :
    hideLanding b s =
      { s with
        pendingDetach := s.pendingDetach ++ [r]
        sessionKey := if b then some "1" else s.sessionKey } := by
  obtain ⟨k, lr, ao, ni, pd, kf, rb, cp, hp, hc, oi, dh, il⟩ := s
  subst h
  cases b <;> simp [hideLanding]

theorem fireDetach_nil {s : St} (h : s.pendingDetach = []) :
    fireDetach s = s := by
  unfold fireDetach
  rw [h]

theorem fireDetach_cons {s : St} {r : Nat} {rest : List Nat}
    (h : s.pendingDetach = r :: rest) :
    fireDetach s =
      ensureReturnButton
        { s with
          attachedOverlays := s.attachedOverlays.erase r
          landingRoot := if s.landingRoot = some r then none else s.landingRoot
          pendingDetach := rest } := by
  obtain ⟨k, lr, ao, ni, pd, kf, rb, cp, hp, hc, oi, dh, il⟩ := s
  subst h
  simp [fireDetach]

@[simp] theorem ensureReturn_sessionKey (s : St) :
    (ensureReturnButton s).sessionKey = s.sessionKey := by
  rw [ensureReturnButton_eq]

@[simp] theorem ensureReturn_landingRoot (s : St) :
    (ensureReturnButton s).landingRoot = s.landingRoot := by
  rw [ensureReturnButton_eq]

@[simp] theorem ensureReturn_attached (s : St) :
    (ensureReturnButton s).attachedOverlays = s.attachedOverlays := by
  rw [ensureReturnButton_eq]

@[simp] theorem ensureReturn_nextId (s : St) :
    (ensureReturnButton s).nextId = s.nextId := by
  rw [ensureReturnButton_eq]

@[simp] theorem ensureReturn_pending (s : St) :
    (ensureReturnButton s).pendingDetach = s.pendingDetach := by
  rw [ensureReturnButton_eq]

@[simp] theorem ensureReturn_keyframes (s : St) :
    (ensureReturnButton s).keyframes = s.keyframes := by
  rw [ensureReturnButton_eq]

@[simp] theorem ensureReturn_header (s : St) :
    (ensureReturnButton s).headerPresent = s.headerPresent := by
  rw [ensureReturnButton_eq]

@[simp] theorem ensureReturn_observer (s : St) :
    (ensureReturnButton s).observerInstalled = s.observerInstalled := by
  rw [ensureReturnButton_eq]

@[simp] theorem ensureReturn_hostCtrls (s : St) :
    (ensureReturnButton s).hostControls = hideNativeHeaderButtons s.hostControls := by
  rw [ensureReturnButton_eq]

theorem ensureReturn_btns_ne (s : St) : (ensureReturnButton s).returnBtns ≠ [] := by
  rw [ensureReturnButton_eq]
  dsimp only
  split_ifs <;> simp_all

theorem ensureReturn_btns_of_ne {s : St} (h : s.returnBtns ≠ []) :
    (ensureReturnButton s).returnBtns = s.returnBtns := by
  rw [ensureReturnButton_eq]
  dsimp only
  rw [if_neg h]

@[simp] theorem removeReturn_sessionKey (s : St) :
    (removeReturnButton s).sessionKey = s.sessionKey := by
  cases h : s.returnBtns with
  | nil => rw [removeReturn_nil h]
  | cons bp rest => rw [removeReturn_cons h]

@[simp] theorem removeReturn_landingRoot (s : St) :
    (removeReturnButton s).landingRoot = s.landingRoot := by
  cases h : s.returnBtns with
  | nil => rw [removeReturn_nil h]
  | cons bp rest => rw [removeReturn_cons h]

@[simp] theorem removeReturn_attached (s : St) :
    (removeReturnButton s).attachedOverlays = s.attachedOverlays := by
  cases h : s.returnBtns with
  | nil => rw [removeReturn_nil h]
  | cons bp rest => rw [removeReturn_cons h]

@[simp] theorem removeReturn_nextId (s : St) :
    (removeReturnButton s).nextId = s.nextId := by
  cases h : s.returnBtns with
  | nil => rw [removeReturn_nil h]
  | cons bp rest => rw [removeReturn_cons h]

@[simp] theorem removeReturn_pending (s : St) :
    (removeReturnButton s).pendingDetach = s.pendingDetach := by
  cases h : s.returnBtns with
  | nil => rw [removeReturn_nil h]
  | cons bp rest => rw [removeReturn_cons h]

@[simp] theorem removeReturn_keyframes (s : St) :
    (removeReturnButton s).keyframes = s.keyframes := by
  cases h : s.returnBtns with
  | nil => rw [removeReturn_nil h]
  | cons bp rest => rw [removeReturn_cons h]

@[simp] theorem removeReturn_header (s : St) :
    (removeReturnButton s).headerPresent = s.headerPresent := by
  cases h : s.returnBtns with
  | nil => rw [removeReturn_nil h]
  | cons bp rest => rw [removeReturn_cons h]

@[simp] theorem removeReturn_hostCtrls (s : St) :
    (removeReturnButton s).hostControls = s.hostControls := by
  cases h : s.returnBtns with
  | nil => rw [removeReturn_nil h]
  | cons bp rest => rw [removeReturn_cons h]

@[simp] theorem removeReturn_observer (s : St) :
    (removeReturnButton s).observerInstalled = s.observerInstalled := by
  cases h : s.returnBtns with
  | nil => rw [removeReturn_nil h]
  | cons bp rest => rw [removeReturn_cons h]

theorem removeReturn_btns_len (s : St) :
    (removeReturnButton s).returnBtns.length ≤ s.returnBtns.length := by
  cases h : s.returnBtns with
  | nil => rw [removeReturn_nil h, h]
  | cons bp rest => rw [removeReturn_cons h]; simp

@[simp] theorem ensureKeyframe_sessionKey (s : St) :
    (ensureKeyframe s).sessionKey = s.sessionKey := by
  rw [ensureKeyframe_eq]; split <;> rfl

@[simp] theorem ensureKeyframe_landingRoot (s : St) :
    (ensureKeyframe s).landingRoot = s.landingRoot := by
  rw [ensureKeyframe_eq]; split <;> rfl

@[simp] theorem ensureKeyframe_attached (s : St) :
    (ensureKeyframe s).attachedOverlays = s.attachedOverlays := by
  rw [ensureKeyframe_eq]; split <;> rfl

@[simp] theorem ensureKeyframe_nextId (s : St) :
    (ensureKeyframe s).nextId = s.nextId := by
  rw [ensureKeyframe_eq]; split <;> rfl

@[simp] theorem ensureKeyframe_pending (s : St) :
    (ensureKeyframe s).pendingDetach = s.pendingDetach := by
  rw [ensureKeyframe_eq]; split <;> rfl

@[simp] theorem ensureKeyframe_btns (s : St) :
    (ensureKeyframe s).returnBtns = s.returnBtns := by
  rw [ensureKeyframe_eq]; split <;> rfl

@[simp] theorem ensureKeyframe_container (s : St) :
    (ensureKeyframe s).containerPresent = s.containerPresent := by
  rw [ensureKeyframe_eq]; split <;> rfl

@[simp] theorem ensureKeyframe_header (s : St) :
    (ensureKeyframe s).headerPresent = s.headerPresent := by
  rw [ensureKeyframe_eq]; split <;> rfl

@[simp] theorem ensureKeyframe_hostCtrls (s : St) :
    (ensureKeyframe s).hostControls = s.hostControls := by
  rw [ensureKeyframe_eq]; split <;> rfl

@[simp] theorem ensureKeyframe_observer (s : St) :
    (ensureKeyframe s).observerInstalled = s.observerInstalled := by
  rw [ensureKeyframe_eq]; split <;> rfl

theorem ensureKeyframe_kf (s : St) :
    (ensureKeyframe s).keyframes = if s.keyframes = 0 then 1 else s.keyframes := by
  rw [ensureKeyframe_eq]; split <;> rfl

@[simp] theorem buildLanding_sessionKey (s : St) :
    (buildLanding s).sessionKey = s.sessionKey := rfl

@[simp] theorem buildLanding_landingRoot (s : St) :
    (buildLanding s).landingRoot = some s.nextId := rfl

@[simp] theorem buildLanding_attached (s : St) :
    (buildLanding s).attachedOverlays = s.attachedOverlays ++ [s.nextId] := rfl

@[simp] theorem buildLanding_pending (s : St) :
    (buildLanding s).pendingDetach = s.pendingDetach := rfl

@[simp] theorem buildLanding_keyframes (s : St) :
    (buildLanding s).keyframes = s.keyframes := rfl

@[simp] theorem buildLanding_btns (s : St) :
    (buildLanding s).returnBtns = s.returnBtns := rfl

@[simp] theorem buildLanding_container (s : St) :
    (buildLanding s).containerPresent = s.containerPresent := rfl

@[simp] theorem buildLanding_header (s : St) :
    (buildLanding s).headerPresent = s.headerPresent := rfl

@[simp] theorem buildLanding_hostCtrls (s : St) :
    (buildLanding s).hostControls = s.hostControls := rfl

@[simp] theorem buildLanding_observer (s : St) :
    (buildLanding s).observerInstalled = s.observerInstalled := rfl

theorem ensureReturn_idem (s : St) :
    ensureReturnButton (ensureReturnButton s) = ensureReturnButton s := by
  have hne := ensureReturn_btns_ne s
  rw [ensureReturnButton_eq (ensureReturnButton s), if_neg hne,
    if_neg (fun hc => hne hc.1), ensureReturn_hostCtrls, hideNative_idem,
    ← ensureReturn_hostCtrls]

theorem ensureReturn_pendSet (s : St) (p : List Nat) :
    ensureReturnButton { s with pendingDetach := p }
      = { ensureReturnButton s with pendingDetach := p } := by
  rw [ensureReturnButton_eq, ensureReturnButton_eq s]

theorem inv_ensureReturn {s : St} (h : Inv s) : Inv (ensureReturnButton s) := by
  obtain ⟨hb, ha⟩ := h
  rw [Inv, ensureReturnButton_eq]
  refine ⟨?_, ha⟩
  dsimp only
  split_ifs <;> simp_all

theorem inv_removeReturn {s : St} (h : Inv s) : Inv (removeReturnButton s) := by
  obtain ⟨hb, ha⟩ := h
  cases hrb : s.returnBtns with
  | nil => rw [removeReturn_nil hrb]; exact ⟨hb, ha⟩
  | cons bp rest =>
    rw [removeReturn_cons hrb]
    refine ⟨?_, ha⟩
    rw [hrb] at hb
    simp only [List.length_cons] at hb ⊢
    omega

theorem inv_keyframe {s : St} (h : Inv s) : Inv (ensureKeyframe s) := by
  rw [ensureKeyframe_eq]
  split <;> exact h

theorem clear_nil {s : St} (h : s.landingRoot = none) : clearLandingRoot s = s := by
  unfold clearLandingRoot
  rw [h]

theorem clear_some {s : St} {r : Nat} (h : s.landingRoot = some r) :
    clearLandingRoot s =
      { s with attachedOverlays := s.attachedOverlays.erase r, landingRoot := none } := by
  unfold clearLandingRoot
  rw [h]

@[simp] theorem clear_root (s : St) : (clearLandingRoot s).landingRoot = none := by
  cases h : s.landingRoot with
  | none => rw [clear_nil h]; exact h
  | some r => rw [clear_some h]

@[simp] theorem clear_btns (s : St) : (clearLandingRoot s).returnBtns = s.returnBtns := by
  cases h : s.landingRoot with
  | none => rw [clear_nil h]
  | some r => rw [clear_some h]

@[simp] theorem clear_sessionKey (s : St) : (clearLandingRoot s).sessionKey = s.sessionKey := by
  cases h : s.landingRoot with
  | none => rw [clear_nil h]
  | some r => rw [clear_some h]

@[simp] theorem clear_pending (s : St) : (clearLandingRoot s).pendingDetach = s.pendingDetach := by
  cases h : s.landingRoot with
  | none => rw [clear_nil h]
  | some r => rw [clear_some h]

@[simp] theorem clear_keyframes (s : St) : (clearLandingRoot s).keyframes = s.keyframes := by
  cases h : s.landingRoot with
  | none => rw [clear_nil h]
  | some r => rw [clear_some h]

@[simp] theorem clear_nextId (s : St) : (clearLandingRoot s).nextId = s.nextId := by
  cases h : s.landingRoot with
  | none => rw [clear_nil h]
  | some r => rw [clear_some h]

@[simp] theorem clear_hostCtrls (s : St) : (clearLandingRoot s).hostControls = s.hostControls := by
  cases h : s.landingRoot with
  | none => rw [clear_nil h]
  | some r => rw [clear_some h]

@[simp] theorem clear_header (s : St) : (clearLandingRoot s).headerPresent = s.headerPresent := by
  cases h : s.landingRoot with
  | none => rw [clear_nil h]
  | some r => rw [clear_some h]

@[simp] theorem clear_container (s : St) :
    (clearLandingRoot s).containerPresent = s.containerPresent := by
  cases h : s.landingRoot with
  | none => rw [clear_nil h]
  | some r => rw [clear_some h]

@[simp] theorem clear_observer (s : St) :
    (clearLandingRoot s).observerInstalled = s.observerInstalled := by
  cases h : s.landingRoot with
  | none => rw [clear_nil h]
  | some r => rw [clear_some h]

theorem clear_attached {s : St} (ha : s.attachedOverlays = s.landingRoot.toList) :
    (clearLandingRoot s).attachedOverlays = [] := by
  cases h : s.landingRoot with
  | none => rw [clear_nil h, ha, h]; rfl
  | some r =>
    rw [clear_some h]
    show s.attachedOverlays.erase r = []
    rw [ha, h]
    simp [Option.toList]

theorem inv_showLanding (b : Bool) {s : St} (h : Inv s) :
    Inv (showLanding b s) ∧ (showLanding b s).attachedOverlays.length = 1 := by
  obtain ⟨hb, ha⟩ := h
  have h1 : Inv (if b then { s with sessionKey := none } else s) := by
    cases b <;> exact ⟨hb, ha⟩
  have h2 := inv_removeReturn h1
  have h3 := clear_attached h2.2
  unfold showLanding
  refine ⟨⟨?_, ?_⟩, ?_⟩
  · simpa using h2.1
  · simp [h3, Option.toList]
  · simp [h3]

theorem inv_setupObservers {s : St} (h : Inv s) : Inv (setupObservers s) := by
  unfold setupObservers
  split
  · exact h
  · exact inv_ensureReturn (s := { s with observerInstalled := true }) h

theorem inv_routeInit {t : St} (ht : Inv t) : Inv (routeInit t) := by
  unfold routeInit
  cases hsk : t.sessionKey with
  | none => exact (inv_showLanding false ht).1
  | some v =>
    dsimp only
    by_cases hv : v = ""
    · rw [if_pos hv]
      exact (inv_showLanding false ht).1
    · rw [if_neg hv]
      exact inv_ensureReturn ht

theorem inv_init {s : St} (h : Inv s) : Inv (init s) := by
  have h2 : Inv { ensureKeyframe s with
      hostControls := hideNativeHeaderButtons (ensureKeyframe s).hostControls } :=
    inv_keyframe h
  exact inv_setupObservers (inv_routeInit h2)

theorem inv_applyOp (op : Op) {s : St} (h : Inv s) : Inv (applyOp op s) := by
  cases op with
  | present b => exact (inv_showLanding b h).1
  | dismiss b =>
    show Inv (hideLanding b s)
    cases hlr : s.landingRoot with
    | none => rw [hideLanding_none b hlr]; exact h
    | some r => rw [hideLanding_some b hlr]; exact h
  | reconcile =>
    show Inv { ensureReturnButton s with
      hostControls := hideNativeHeaderButtons (ensureReturnButton s).hostControls }
    exact inv_ensureReturn h
  | fire =>
    show Inv (fireDetach s)
    cases hpd : s.pendingDetach with
    | nil => rw [fireDetach_nil hpd]; exact h
    | cons r rest =>
      rw [fireDetach_cons hpd]
      refine inv_ensureReturn ⟨h.1, ?_⟩
      obtain ⟨hb, ha⟩ := h
      cases hlr : s.landingRoot with
      | none => simp [ha, hlr, Option.toList]
      | some a =>
        by_cases hra : a = r
        · subst hra
          simp [ha, hlr, Option.toList]
        · simp [ha, hlr, hra, Option.toList, List.erase_cons]
  | keyframe => exact inv_keyframe h
  | reset =>
    show Inv (showLanding false { s with sessionKey := none })
    exact (inv_showLanding false (s := { s with sessionKey := none }) h).1
  | hideNatives => exact h
  | boot => exact inv_init h
  | ready =>
    show Inv (domReady s)
    unfold domReady
    split
    · exact inv_init (s := { s with initListener := false }) h
    · exact h
  | host m =>
    cases m with
    | addCtrl c => exact h
    | removeCtrl i => exact h
    | rewriteCtrls l => exact h
    | setHeader b => exact h
    | removeReturnBtns => exact ⟨Nat.zero_le 1, h.2⟩

theorem inv_applyOps (ops : List Op) {s : St} (h : Inv s) : Inv (applyOps ops s) := by
  induction ops generalizing s with
  | nil => exact h
  | cons op t ih => exact ih (inv_applyOp op h)

/-- C1 (confirmed): across every sequence of operations -- reconciliation
passes, overlay lifecycle calls, timer firings, bootstraps, debug hooks and
host-tree mutations -- a state satisfying the controller invariant keeps at
most one ReturnControl in the document; and `ensureReturnButton` only
creates a button after checking that none exists anywhere (when one exists
it leaves the button set untouched). -/
theorem returnControl_unique (s : St) (h : Inv s) :
    (∀ ops : List Op, (applyOps ops s).returnBtns.length ≤ 1)
    ∧ (s.returnBtns ≠ [] → (ensureReturnButton s).returnBtns = s.returnBtns) :=
  ⟨fun ops => (inv_applyOps ops h).1, fun hne => ensureReturn_btns_of_ne hne⟩

theorem returnControl_unique_witness :
    Inv St.start
    ∧ (applyOps [Op.boot, Op.reconcile, Op.host (HostMut.setHeader true), Op.reconcile,
        Op.dismiss true, Op.fire, Op.reconcile] St.start).returnBtns.length ≤ 1
    ∧ (ensureReturnButton sFloatBtn).returnBtns = sFloatBtn.returnBtns :=
  ⟨by decide,
    (returnControl_unique St.start (by decide)).1 _,
    (returnControl_unique sFloatBtn (by decide)).2 (by decide)⟩

/-- C6 (confirmed): calling `present(false)` twice in a row from any state
satisfying the controller invariant leaves exactly one attached OverlayRoot
(`showLanding` always removes the current root, tolerating zero, before
building and attaching a fresh one), and along every operation sequence at
most one overlay root is attached at a time. -/
theorem present_twice_single_overlay (s : St) (h : Inv s) :
    (showLanding false (showLanding false s)).attachedOverlays.length = 1
    ∧ (∀ ops : List Op, (applyOps ops s).attachedOverlays.length ≤ 1) := by
  refine ⟨(inv_showLanding false (inv_showLanding false h).1).2, fun ops => ?_⟩
  rw [(inv_applyOps ops h).2]
  cases (applyOps ops s).landingRoot <;> simp [Option.toList]

theorem present_twice_single_overlay_witness :
    Inv St.start
    ∧ (showLanding false (showLanding false St.start)).attachedOverlays.length = 1
    ∧ (applyOps [Op.boot, Op.present false, Op.present false, Op.dismiss true] St.start).attachedOverlays.length ≤ 1 :=
  ⟨by decide,
    (present_twice_single_overlay St.start (by decide)).1,
    (present_twice_single_overlay St.start (by decide)).2 _⟩

theorem ensureKeyframe_stable {s : St} (h : s.keyframes ≠ 0) : ensureKeyframe s = s := by
  rw [ensureKeyframe_eq, if_neg h]

theorem showLanding_kf1 (b : Bool) {s : St} (h : s.keyframes = 1) :
    (showLanding b s).keyframes = 1 := by
  unfold showLanding
  cases b <;> simp [ensureKeyframe_kf, h]

theorem fireDetach_kf (s : St) : (fireDetach s).keyframes = s.keyframes := by
  cases hpd : s.pendingDetach with
  | nil => rw [fireDetach_nil hpd]
  | cons r rest => rw [fireDetach_cons hpd]; simp

theorem setupObservers_kf (s : St) : (setupObservers s).keyframes = s.keyframes := by
  unfold setupObservers
  split
  · rfl
  · simp

theorem routeInit_kf1 {t : St} (h : t.keyframes = 1) : (routeInit t).keyframes = 1 := by
  unfold routeInit
  cases hsk : t.sessionKey with
  | none => exact showLanding_kf1 false h
  | some v =>
    dsimp only
    by_cases hv : v = ""
    · rw [if_pos hv]
      exact showLanding_kf1 false h
    · rw [if_neg hv]
      simp [h]

theorem init_kf1 {s : St} (h : s.keyframes ≤ 1) : (init s).keyframes = 1 := by
  unfold init
  dsimp only
  rw [setupObservers_kf]
  apply routeInit_kf1
  show (ensureKeyframe s).keyframes = 1
  rw [ensureKeyframe_kf]
  split_ifs with h0
  · rfl
  · omega

theorem domReady_kf1 {s : St} (h : s.keyframes = 1) : (domReady s).keyframes = 1 := by
  unfold domReady
  split
  · exact init_kf1 (le_of_eq h)
  · exact h

theorem kf_applyOp (op : Op) {s : St} (h : s.keyframes = 1) :
    (applyOp op s).keyframes = 1 := by
  cases op with
  | present b => exact showLanding_kf1 b h
  | dismiss b =>
    show (hideLanding b s).keyframes = 1
    cases hlr : s.landingRoot with
    | none => rw [hideLanding_none b hlr]; exact h
    | some r => rw [hideLanding_some b hlr]; exact h
  | reconcile =>
    show (ensureReturnButton s).keyframes = 1
    rw [ensureReturn_keyframes]
    exact h
  | fire =>
    show (fireDetach s).keyframes = 1
    rw [fireDetach_kf]
    exact h
  | keyframe =>
    show (ensureKeyframe s).keyframes = 1
    rw [ensureKeyframe_kf, h]
    rfl
  | reset => exact showLanding_kf1 false (s := { s with sessionKey := none }) h
  | hideNatives => exact h
  | boot => exact init_kf1 (le_of_eq h)
  | ready => exact domReady_kf1 h
  | host m => cases m <;> exact h

theorem kf_applyOps (ops : List Op) {s : St} (h : s.keyframes = 1) :
    (applyOps ops s).keyframes = 1 := by
  induction ops generalizing s with
  | nil => exact h
  | cons op t ih => exact ih (kf_applyOp op h)

/-- C9 (confirmed): `ensureKeyframe` is idempotent.  Starting from a page
holding at most one copy of the keyframe style node, after a call exactly
one named animation definition exists and stays exactly one under every
further operation sequence, and any call made while one exists changes
nothing at all. -/
theorem keyframe_registrar (s : St) (h : s.keyframes ≤ 1) :
    ensureKeyframe (ensureKeyframe s) = ensureKeyframe s
    ∧ (s.keyframes ≠ 0 → ensureKeyframe s = s)
    ∧ (∀ ops : List Op, (applyOps ops (ensureKeyframe s)).keyframes = 1) := by
  refine ⟨?_, fun h0 => ensureKeyframe_stable h0, fun ops => ?_⟩
  · by_cases h0 : s.keyframes = 0
    · rw [ensureKeyframe_eq s, if_pos h0]
      exact ensureKeyframe_stable (by simp)
    · rw [ensureKeyframe_stable h0, ensureKeyframe_stable h0]
  · apply kf_applyOps
    rw [ensureKeyframe_kf]
    split_ifs with h0
    · rfl
    · omega

theorem keyframe_registrar_witness :
    St.start.keyframes ≤ 1
    ∧ ensureKeyframe (ensureKeyframe St.start) = ensureKeyframe St.start
    ∧ (applyOps [Op.boot, Op.keyframe, Op.present true, Op.keyframe] (ensureKeyframe St.start)).keyframes = 1 :=
  ⟨by decide,
    (keyframe_registrar St.start (by decide)).1,
    (keyframe_registrar St.start (by decide)).2.2 _⟩

theorem showLanding_key (b : Bool) (s : St) :
    (showLanding b s).sessionKey = if b then none else s.sessionKey := by
  unfold showLanding
  cases b <;> simp

theorem fireDetach_key (s : St) : (fireDetach s).sessionKey = s.sessionKey := by
  cases hpd : s.pendingDetach with
  | nil => rw [fireDetach_nil hpd]
  | cons r rest => rw [fireDetach_cons hpd]; simp

theorem setupObservers_key (s : St) : (setupObservers s).sessionKey = s.sessionKey := by
  unfold setupObservers
  split
  · rfl
  · simp

theorem routeInit_key (t : St) : (routeInit t).sessionKey = t.sessionKey := by
  unfold routeInit
  cases hsk : t.sessionKey with
  | none => simp [showLanding_key, hsk]
  | some v =>
    dsimp only
    by_cases hv : v = ""
    · rw [if_pos hv]
      simp [showLanding_key, hsk]
    · rw [if_neg hv]
      simp [hsk]

theorem init_key (s : St) : (init s).sessionKey = s.sessionKey := by
  unfold init
  dsimp only
  rw [setupObservers_key, routeInit_key]
  simp

theorem domReady_key (s : St) : (domReady s).sessionKey = s.sessionKey := by
  unfold domReady
  split
  · rw [init_key]
  · rfl

/-- C5 counterexample: the claim says no operation other than
`dismiss(true)`, `dismiss(false)` and `present(true)` writes the dismissal
key, but the debug hook `window.CULanding.reset` (lines 398-401) also
writes it: on a state whose key is `"1"` it removes the key (before
re-presenting with the default non-reset flag). -/
theorem dismissal_key_extra_writer_cex :
    ({ sLive with sessionKey := some "1" } : St).sessionKey = some "1"
    ∧ (applyOp Op.reset { sLive with sessionKey := some "1" }).sessionKey = none :=
  ⟨rfl, by decide⟩

/-- C5 amended: after `dismiss(true)` on a live overlay the key equals
`"1"`; `dismiss(false)` leaves the key unchanged; `present(true)` removes
the key whatever its prior value; and the only operations writing the key
are these together with the debug full-reset, which also removes it --
`present(false)`, reconciliation, timer firings, keyframe registration,
host mutations, bootstrap, the DOMContentLoaded handler, and `dismiss` on
a dead overlay all leave the key untouched. -/
theorem dismissal_key_semantics (s : St) (r : Nat) (b : Bool) (m : HostMut) :
    (s.landingRoot = some r → (hideLanding true s).sessionKey = some "1")
    ∧ (hideLanding false s).sessionKey = s.sessionKey
    ∧ (showLanding true s).sessionKey = none
    ∧ (resetOp s).sessionKey = none
    ∧ (showLanding false s).sessionKey = s.sessionKey
    ∧ (applyOp Op.reconcile s).sessionKey = s.sessionKey
    ∧ (fireDetach s).sessionKey = s.sessionKey
    ∧ (ensureKeyframe s).sessionKey = s.sessionKey
    ∧ (applyOp Op.hideNatives s).sessionKey = s.sessionKey
    ∧ (applyHostMut m s).sessionKey = s.sessionKey
    ∧ (init s).sessionKey = s.sessionKey
    ∧ (domReady s).sessionKey = s.sessionKey
    ∧ (s.landingRoot = none → hideLanding b s = s) := by
  refine ⟨fun hlr => ?_, ?_, ?_, ?_, ?_, ?_, fireDetach_key s, ensureKeyframe_sessionKey s,
    ?_, ?_, init_key s, domReady_key s, fun hlr => hideLanding_none b hlr⟩
  · rw [hideLanding_some true hlr]
    simp
  · cases hlr : s.landingRoot with
    | none => rw [hideLanding_none false hlr]
    | some a => rw [hideLanding_some false hlr]; simp
  · rw [showLanding_key]
    simp
  · show (showLanding false { s with sessionKey := none }).sessionKey = none
    rw [showLanding_key]
    simp
  · rw [showLanding_key]
    simp
  · show ({ ensureReturnButton s with
      hostControls := hideNativeHeaderButtons (ensureReturnButton s).hostControls } : St).sessionKey
        = s.sessionKey
    simp
  · rfl
  · cases m <;> rfl

theorem dismissal_key_semantics_witness :
    (hideLanding true sLive).sessionKey = some "1"
    ∧ (hideLanding false sLive).sessionKey = sLive.sessionKey
    ∧ (showLanding true sLive).sessionKey = none
    ∧ hideLanding true St.start = St.start :=
  ⟨(dismissal_key_semantics sLive 0 true HostMut.removeReturnBtns).1 rfl,
    (dismissal_key_semantics sLive 0 true HostMut.removeReturnBtns).2.1,
    (dismissal_key_semantics sLive 0 true HostMut.removeReturnBtns).2.2.1,
    (dismissal_key_semantics St.start 0 true HostMut.removeReturnBtns).2.2.2.2.2.2.2.2.2.2.2.2 rfl⟩

/-- C2 counterexample: `hideLanding` does NOT clear the overlay-root
reference synchronously -- the reference is nulled only inside the 260 ms
callback (line 288).  Consequently a second `dismiss(true)` issued before
the pending detach fires is not a no-op: on a state with one live overlay,
after the first dismiss the reference is still set, and the second dismiss
schedules a second removal callback (two pending detaches). -/
theorem dismiss_reentrant_cex :
    (hideLanding true sLive).landingRoot ≠ none
    ∧ (hideLanding true (hideLanding true sLive)).pendingDetach.length = 2 :=
  ⟨by decide, by decide⟩

/-- C2 amended: the overlay-root reference is cleared only when the pending
detach callback fires, not synchronously; a second `dismiss` before the
detach fires does schedule a second removal callback and rewrite the
DismissalFlag (to the identical value), but it is harmless: once all
scheduled callbacks have fired, the state equals the one reached by a
single `dismiss` followed by its single callback -- the stale callback
finds the node already detached and the reference already null, and
re-running reconciliation changes nothing. -/
theorem dismiss_reentrant_amended (s : St) (r : Nat) (b : Bool)
    (h1 : s.landingRoot = some r) (h2 : s.attachedOverlays = [r])
    (h3 : s.pendingDetach = []) :
    (hideLanding b s).landingRoot = some r
    ∧ fireDetach (fireDetach (hideLanding b (hideLanding b s)))
        = fireDetach (hideLanding b s)
    ∧ (fireDetach (hideLanding b s)).landingRoot = none := by
  obtain ⟨k, lr, ao, ni, pd, kf, rb, cp, hp, hc, oi, dh, il⟩ := s
  subst h1
  subst h2
  subst h3
  refine ⟨by cases b <;> rfl, ?_, ?_⟩
  · by_cases hrb : rb = [] <;> cases hp <;> cases b <;>
      simp [hideLanding, fireDetach, ensureReturnButton_eq, hideNative_idem, hrb,
        List.erase_cons_head]
  · cases b <;>
      simp [hideLanding, fireDetach, ensureReturnButton_eq, List.erase_cons_head]

theorem dismiss_reentrant_amended_witness :
    sLive.landingRoot = some 0 ∧ sLive.attachedOverlays = [0] ∧ sLive.pendingDetach = []
    ∧ fireDetach (fireDetach (hideLanding true (hideLanding true sLive)))
        = fireDetach (hideLanding true sLive) :=
  ⟨rfl, rfl, rfl, (dismiss_reentrant_amended sLive 0 true rfl rfl rfl).2.1⟩

end LandingScript
